import Mathlib

/-!
Verification of static/js/main.js

A shallow embedding of the eighteen-line browser script `static/js/main.js`
and the properties of its two behaviours: the visibility synchroniser
`syncUI` and the reset click handler.

The script looks three elements up once (`dimsSelect`, `zRow`, `btnReset`),
keeps the references in `const` bindings, and every later access goes through
these bindings.  The state below is therefore the three bindings (each `none`
when `getElementById` returned `null`) together with the last value assigned
to `window.location.href`.
-/

namespace MainJs

/-! ## Values and errors -/

/-- The exception a JavaScript member access or call on `null` raises. -/
inductive JSError where
  | typeError
  deriving DecidableEq, Repr

/-- The JavaScript values the expression `dimsSelect?.value || "2"` ranges
over: `undefined` (the optional chain short-circuited) or a string. -/
inductive JSVal where
  | undefined
  | str (s : String)
  deriving DecidableEq, Repr

/-- The two function values the script creates: the declaration `syncUI` and
the arrow function passed as click listener. -/
inductive Handler where
  | syncUIFn
  | resetArrow
  deriving DecidableEq, Repr

/-! ## The document -/

/-- The `select` element: its current `value` (always a string in the DOM) and
the `change` listeners attached to it, in registration order. -/
structure SelectElem where
  value : String
  changeListeners : List Handler
  deriving DecidableEq, Repr

/-- The container row: only `style.display` is read or written. -/
structure Container where
  display : String
  deriving DecidableEq, Repr

/-- The reset button: the `click` listeners attached to it. -/
structure ButtonElem where
  clickListeners : List Handler
  deriving DecidableEq, Repr

/-- The three `const` bindings of the script and `window.location.href`. -/
structure State where
  dimsSelect : Option SelectElem
  zRow : Option Container
  btnReset : Option ButtonElem
  href : String
  deriving DecidableEq, Repr

/-! ## JavaScript primitives used by the script -/

/-- JavaScript truthiness: `undefined` and the empty string are falsy. -/
def truthy : JSVal → Bool
  | JSVal.undefined => false
  | JSVal.str s => s != ""

/-- The operator `a || b`: `a` when it is truthy, `b` otherwise. -/
def jsOr (a b : JSVal) : JSVal :=
  if truthy a then a else b

/-- Strict equality `a === b` on the values above. -/
def strictEq (a b : JSVal) : Bool :=
  decide (a = b)

/-- The optional chain `dimsSelect?.value`: `undefined` on `null`. -/
def optValue (e : Option SelectElem) : JSVal :=
  match e with
  | none => JSVal.undefined
  | some sel => JSVal.str sel.value

/-- The assignment `zRow.style.display = d`: a `TypeError` on `null`. -/
def setDisplay (z : Option Container) (d : String) : Except JSError (Option Container) :=
  match z with
  | none => Except.error JSError.typeError
  | some c => Except.ok (some { c with display := d })

/-- The call `target.addEventListener("change", h)`: a `TypeError` on `null`;
the function values of one run are fresh, so the listener is appended. -/
def addChangeListener (e : Option SelectElem) (h : Handler) :
    Except JSError (Option SelectElem) :=
  match e with
  | none => Except.error JSError.typeError
  | some sel => Except.ok (some { sel with changeListeners := sel.changeListeners ++ [h] })

/-- The call `target.addEventListener("click", h)`: a `TypeError` on `null`. -/
def addClickListener (e : Option ButtonElem) (h : Handler) :
    Except JSError (Option ButtonElem) :=
  match e with
  | none => Except.error JSError.typeError
  | some b => Except.ok (some { b with clickListeners := b.clickListeners ++ [h] })

/-- The optional call `target?.m(args)`: nothing is evaluated on `null`. -/
def optCall {α : Type} (e : Option α) (m : Option α → Except JSError (Option α)) :
    Except JSError (Option α) :=
  match e with
  | none => Except.ok none
  | some _ => m e

/-! ## The two functions of the script -/

/-- Lines 6-9:
`const dims = dimsSelect?.value || "2";`
`if (zRow) zRow.style.display = (dims === "3") ? "grid" : "none";` -/
def syncUI (s : State) : Except JSError State :=
  let dims := jsOr (optValue s.dimsSelect) (JSVal.str "2")
  if s.zRow.isSome then
    match setDisplay s.zRow (if strictEq dims (JSVal.str "3") then "grid" else "none") with
    | Except.error err => Except.error err
    | Except.ok z => Except.ok { s with zRow := z }
  else
    Except.ok s

/-- Lines 13-15, the arrow function: `window.location.href = "/";`. -/
def resetClick (s : State) : Except JSError State :=
  Except.ok { s with href := "/" }

/-- The body a function value runs when it is called. -/
def runHandler (h : Handler) (s : State) : Except JSError State :=
  match h with
  | Handler.syncUIFn => syncUI s
  | Handler.resetArrow => resetClick s

/-! ## Execution with a record of the calls made -/

/-- An execution: the document and the function values called so far. -/
structure Exec where
  doc : State
  invoked : List Handler
  deriving DecidableEq, Repr

/-- Calling a function value: it is recorded and its body runs. -/
def invoke (h : Handler) (e : Exec) : Except JSError Exec :=
  match runHandler h e.doc with
  | Except.error err => Except.error err
  | Except.ok d => Except.ok { doc := d, invoked := e.invoked ++ [h] }

/-- The three statements of the function body after the `const` bindings. -/
inductive Stmt where
  | optAddChange (h : Handler)
  | optAddClick (h : Handler)
  | call (h : Handler)
  deriving DecidableEq, Repr

/-- One statement. -/
def execStmt (e : Exec) (st : Stmt) : Except JSError Exec :=
  match st with
  | Stmt.optAddChange h =>
    match optCall e.doc.dimsSelect (fun t => addChangeListener t h) with
    | Except.error err => Except.error err
    | Except.ok sel => Except.ok { e with doc := { e.doc with dimsSelect := sel } }
  | Stmt.optAddClick h =>
    match optCall e.doc.btnReset (fun t => addClickListener t h) with
    | Except.error err => Except.error err
    | Except.ok b => Except.ok { e with doc := { e.doc with btnReset := b } }
  | Stmt.call h => invoke h e

/-- A statement list, left to right, stopping at the first exception. -/
def execStmts (e : Exec) : List Stmt → Except JSError Exec
  | [] => Except.ok e
  | st :: rest =>
    match execStmt e st with
    | Except.error err => Except.error err
    | Except.ok e1 => execStmts e1 rest

/-- Lines 11 and 13-15: the two listener registrations. -/
def registrations : List Stmt :=
  [Stmt.optAddChange Handler.syncUIFn, Stmt.optAddClick Handler.resetArrow]

/-- Lines 11-17: the registrations followed by the call `syncUI();`. -/
def script : List Stmt :=
  registrations ++ [Stmt.call Handler.syncUIFn]

/-- The immediately invoked function expression, from a document in which no
function of this run has been called yet. -/
def main (s : State) : Except JSError Exec :=
  execStmts { doc := s, invoked := [] } script

/-- The document the script leaves behind. -/
def runScript (s : State) : Except JSError State :=
  match main s with
  | Except.error err => Except.error err
  | Except.ok e => Except.ok e.doc

/-- The listeners a run attaches, without the initial call. -/
def runRegistrations (s : State) : Except JSError State :=
  match execStmts { doc := s, invoked := [] } registrations with
  | Except.error err => Except.error err
  | Except.ok e => Except.ok e.doc

/-- Calling a list of listeners in order, stopping at the first exception. -/
def invokeAll (e : Exec) : List Handler → Except JSError Exec
  | [] => Except.ok e
  | h :: rest =>
    match invoke h e with
    | Except.error err => Except.error err
    | Except.ok e1 => invokeAll e1 rest

/-- A `change` event on the selection control: the listeners attached when the
event is dispatched run in registration order; with no such element there is
no target and nothing runs. -/
def dispatchChange (s : State) : Except JSError State :=
  match s.dimsSelect with
  | none => Except.ok s
  | some sel =>
    match invokeAll { doc := s, invoked := [] } sel.changeListeners with
    | Except.error err => Except.error err
    | Except.ok e => Except.ok e.doc

/-- A `click` event on the reset control. -/
def dispatchClick (s : State) : Except JSError State :=
  match s.btnReset with
  | none => Except.ok s
  | some b =>
    match invokeAll { doc := s, invoked := [] } b.clickListeners with
    | Except.error err => Except.error err
    | Except.ok e => Except.ok e.doc

/-- The display of the container, when there is one. -/
def displayOf (s : State) : Option String :=
  s.zRow.map Container.display

/-- The value of the selection control, when there is one. -/
def valueOf (s : State) : Option String :=
  s.dimsSelect.map SelectElem.value

/-! ## Closed forms -/

/-- What `syncUI` computes: the display that the selection determines, written
to the container when there is one. -/
def syncDoc (s : State) : State :=
  { s with zRow := s.zRow.map (fun c =>
      { c with display := if valueOf s = some "3" then "grid" else "none" }) }

/-- What a function value computes on the document. -/
def applyHandler (h : Handler) (s : State) : State :=
  match h with
  | Handler.syncUIFn => syncDoc s
  | Handler.resetArrow => { s with href := "/" }

/-- The document after the two registrations. -/
def registered (s : State) : State :=
  { s with
    dimsSelect := s.dimsSelect.map (fun sel =>
      { sel with changeListeners := sel.changeListeners ++ [Handler.syncUIFn] }),
    btnReset := s.btnReset.map (fun b =>
      { b with clickListeners := b.clickListeners ++ [Handler.resetArrow] }) }

/-! ## Lemmas on the closed forms -/

theorem syncUI_eq (s : State) : syncUI s = Except.ok (syncDoc s) := by
  rcases s with ⟨sel, z, b, loc⟩
  cases z with
  | none => simp [syncUI, syncDoc]
  | some c =>
    cases sel with
    | none => simp [syncUI, syncDoc, setDisplay, optValue, jsOr, truthy, strictEq, valueOf]
    | some e =>
      by_cases h3 : e.value = "3"
      · simp [syncUI, syncDoc, setDisplay, optValue, jsOr, truthy, strictEq, valueOf, h3]
      · by_cases h0 : e.value = ""
        · simp [syncUI, syncDoc, setDisplay, optValue, jsOr, truthy, strictEq, valueOf, h0]
        · simp [syncUI, syncDoc, setDisplay, optValue, jsOr, truthy, strictEq, valueOf, h3, h0]

theorem runHandler_eq (h : Handler) (s : State) :
    runHandler h s = Except.ok (applyHandler h s) := by
  cases h with
  | syncUIFn => simp [runHandler, applyHandler, syncUI_eq]
  | resetArrow => simp [runHandler, applyHandler, resetClick]

theorem syncDoc_syncDoc (s : State) : syncDoc (syncDoc s) = syncDoc s := by
  rcases s with ⟨sel, z, b, loc⟩
  cases z <;> simp [syncDoc, valueOf]

theorem invoke_eq (h : Handler) (e : Exec) :
    invoke h e = Except.ok { doc := applyHandler h e.doc, invoked := e.invoked ++ [h] } := by
  simp [invoke, runHandler_eq]

theorem invokeAll_eq (l : List Handler) (e : Exec) :
    invokeAll e l
      = Except.ok { doc := l.foldl (fun d h => applyHandler h d) e.doc,
                    invoked := e.invoked ++ l } := by
  induction l generalizing e with
  | nil => simp [invokeAll]
  | cons h rest ih => simp [invokeAll, invoke_eq, ih]

theorem registrations_eq (e : Exec) :
    execStmts e registrations = Except.ok { e with doc := registered e.doc } := by
  rcases e with ⟨⟨sel, z, b, loc⟩, inv⟩
  cases sel <;> cases b <;>
    simp [execStmts, execStmt, registrations, registered, optCall, addChangeListener,
      addClickListener]

theorem main_eq (s : State) :
    main s = Except.ok { doc := syncDoc (registered s), invoked := [Handler.syncUIFn] } := by
  rcases s with ⟨sel, z, b, loc⟩
  cases sel <;> cases b <;>
    simp [main, script, execStmts, execStmt, registrations, registered, optCall,
      addChangeListener, addClickListener, invoke_eq, applyHandler]

theorem runScript_eq (s : State) : runScript s = Except.ok (syncDoc (registered s)) := by
  simp [runScript, main_eq]

theorem runRegistrations_eq (s : State) : runRegistrations s = Except.ok (registered s) := by
  simp [runRegistrations, registrations_eq]

theorem syncDoc_href_irrelevant (s : State) (loc : String) :
    (syncDoc { s with href := loc }).zRow = (syncDoc s).zRow := by
  simp [syncDoc, valueOf]

/-- A listener list run in order: the bindings keep their elements, the
container is synchronised when `syncUI` is among the listeners, and the
location is the root path when the reset arrow function is among them. -/
theorem foldl_applyHandler (l : List Handler) (s : State) :
    l.foldl (fun d h => applyHandler h d) s
      = { dimsSelect := s.dimsSelect,
          zRow := if Handler.syncUIFn ∈ l then (syncDoc s).zRow else s.zRow,
          btnReset := s.btnReset,
          href := if Handler.resetArrow ∈ l then "/" else s.href } := by
  induction l generalizing s with
  | nil => simp
  | cons h rest ih =>
    rw [List.foldl_cons, ih]
    cases h with
    | syncUIFn =>
      have h2 : (syncDoc (syncDoc s)).zRow = (syncDoc s).zRow := by rw [syncDoc_syncDoc]
      by_cases hm : Handler.syncUIFn ∈ rest <;>
        simp [applyHandler, hm, h2] <;> simp [syncDoc]
    | resetArrow =>
      have h2 := syncDoc_href_irrelevant s "/"
      by_cases hm : Handler.syncUIFn ∈ rest <;>
        simp [applyHandler, hm, h2]

/-! ## The visibility synchroniser -/

/-- C1: with the select and the container both present, `syncUI` returns and
the container display is then "grid" exactly when the select value `v` is "3",
and "none" for every other string, the empty one included. -/
theorem syncUI_display_grid_iff_three (v : String) (ls : List Handler) (c : Container)
    (b : Option ButtonElem) (loc : String) :
    ∃ s1, syncUI { dimsSelect := some { value := v, changeListeners := ls },
                   zRow := some c, btnReset := b, href := loc } = Except.ok s1 ∧
      displayOf s1 = some (if v = "3" then "grid" else "none") ∧
      (displayOf s1 = some "grid" ↔ v = "3") ∧
      (displayOf s1 = some "none" ↔ ¬ v = "3") := by
  refine ⟨_, syncUI_eq _, ?_, ?_, ?_⟩ <;>
    by_cases h : v = "3" <;> simp [syncDoc, displayOf, valueOf, h]

/-- C1 at the empty select value and at "3". -/
theorem syncUI_display_grid_iff_three_witness :
    (∃ s1, syncUI { dimsSelect := some { value := "", changeListeners := [] },
                    zRow := some { display := "grid" }, btnReset := none, href := "/a" }
              = Except.ok s1 ∧ displayOf s1 = some "none") ∧
    (∃ s1, syncUI { dimsSelect := some { value := "3", changeListeners := [] },
                    zRow := some { display := "" }, btnReset := none, href := "/a" }
              = Except.ok s1 ∧ displayOf s1 = some "grid") := by
  constructor
  · obtain ⟨s1, h1, h2, _⟩ :=
      syncUI_display_grid_iff_three "" [] { display := "grid" } none "/a"
    exact ⟨s1, h1, by simpa using h2⟩
  · obtain ⟨s1, h1, h2, _⟩ :=
      syncUI_display_grid_iff_three "3" [] { display := "" } none "/a"
    exact ⟨s1, h1, by simpa using h2⟩

/-- C2 as stated fails: with the select absent and a container showing "grid",
`syncUI` and the whole script both return, and both leave the display "none". -/
theorem select_absent_display_not_kept :
    (State.mk none (some { display := "grid" }) none "/a").dimsSelect = none ∧
    syncUI (State.mk none (some { display := "grid" }) none "/a")
      = Except.ok (State.mk none (some { display := "none" }) none "/a") ∧
    runScript (State.mk none (some { display := "grid" }) none "/a")
      = Except.ok (State.mk none (some { display := "none" }) none "/a") ∧
    displayOf (State.mk none (some { display := "none" }) none "/a")
      ≠ displayOf (State.mk none (some { display := "grid" }) none "/a") := by
  refine ⟨rfl, rfl, rfl, ?_⟩
  decide

/-- C2 amended: with the select absent, `syncUI` and the whole script return
without an exception; the selection defaults to "2", so a container that is
present gets the display "none" whatever it showed before, and an absent
container stays absent. -/
theorem select_absent_hides_container (s : State) (h : s.dimsSelect = none) :
    ∃ s1 s2, syncUI s = Except.ok s1 ∧ runScript s = Except.ok s2 ∧
      displayOf s1 = (displayOf s).map (fun _ => "none") ∧
      displayOf s2 = (displayOf s).map (fun _ => "none") := by
  rcases s with ⟨sel, z, b, loc⟩
  simp only at h
  subst h
  refine ⟨_, _, syncUI_eq _, runScript_eq _, ?_, ?_⟩ <;>
    cases z <;> simp [syncDoc, registered, displayOf, valueOf]

/-- C2 amended, at an absent select and a container with no inline display. -/
theorem select_absent_hides_container_witness :
    ∃ s1 s2, syncUI (State.mk none (some { display := "" }) none "/a") = Except.ok s1 ∧
      runScript (State.mk none (some { display := "" }) none "/a") = Except.ok s2 ∧
      displayOf s1 = some "none" ∧ displayOf s2 = some "none" := by
  obtain ⟨s1, s2, h1, h2, h3, h4⟩ :=
    select_absent_hides_container (State.mk none (some { display := "" }) none "/a") rfl
  exact ⟨s1, s2, h1, h2, by simpa [displayOf] using h3, by simpa [displayOf] using h4⟩

/-- C4: `syncUI` is idempotent on every state: it returns, a second run on its
result returns that same result, and running it twice equals running it once. -/
theorem syncUI_idempotent (s : State) :
    ∃ s1, syncUI s = Except.ok s1 ∧ syncUI s1 = Except.ok s1 ∧
      (syncUI s).bind syncUI = syncUI s := by
  refine ⟨syncDoc s, syncUI_eq s, ?_, ?_⟩
  · rw [syncUI_eq, syncDoc_syncDoc]
  · simp [syncUI_eq, Except.bind, syncDoc_syncDoc]

/-- C6: with the container absent, `syncUI` returns the state it was given,
whatever the select is. -/
theorem syncUI_container_absent_noop (s : State) (h : s.zRow = none) :
    syncUI s = Except.ok s := by
  rcases s with ⟨sel, z, b, loc⟩
  simp only at h
  subst h
  simp [syncUI]

/-- C6 with the select present (value "3") and with the select absent. -/
theorem syncUI_container_absent_noop_witness :
    syncUI (State.mk (some { value := "3", changeListeners := [] }) none none "/a")
      = Except.ok (State.mk (some { value := "3", changeListeners := [] }) none none "/a") ∧
    syncUI (State.mk none none none "/a") = Except.ok (State.mk none none none "/a") :=
  ⟨syncUI_container_absent_noop _ rfl, syncUI_container_absent_noop _ rfl⟩

/-- C9: for two states with the same select (presence and value) and a
container each, `syncUI` returns on both with the same display, which is
"grid" or "none", whatever the earlier displays and locations were. -/
theorem syncUI_display_depends_on_select_only (s t : State)
    (hv : valueOf s = valueOf t) (hs : s.zRow.isSome = true) (ht : t.zRow.isSome = true) :
    ∃ s1 t1, syncUI s = Except.ok s1 ∧ syncUI t = Except.ok t1 ∧
      displayOf s1 = displayOf t1 ∧
      (displayOf s1 = some "grid" ∨ displayOf s1 = some "none") := by
  refine ⟨syncDoc s, syncDoc t, syncUI_eq s, syncUI_eq t, ?_, ?_⟩
  · rcases s with ⟨sel, z, b, loc⟩
    rcases t with ⟨sel2, z2, b2, loc2⟩
    cases z <;> cases z2 <;> simp_all [syncDoc, displayOf]
  · rcases s with ⟨sel, z, b, loc⟩
    cases z with
    | none => simp at hs
    | some c =>
      by_cases h3 : valueOf (State.mk sel (some c) b loc) = some "3" <;>
        simp [syncDoc, displayOf, h3]

/-- C9 at two states that differ in display, location and button. -/
theorem syncUI_display_depends_on_select_only_witness :
    ∃ s1 t1,
      syncUI (State.mk (some { value := "3", changeListeners := [] })
        (some { display := "none" }) none "/a") = Except.ok s1 ∧
      syncUI (State.mk (some { value := "3", changeListeners := [Handler.syncUIFn] })
        (some { display := "block" }) (some { clickListeners := [] }) "/b") = Except.ok t1 ∧
      displayOf s1 = displayOf t1 ∧
      (displayOf s1 = some "grid" ∨ displayOf s1 = some "none") :=
  syncUI_display_depends_on_select_only
    (State.mk (some { value := "3", changeListeners := [] }) (some { display := "none" }) none "/a")
    (State.mk (some { value := "3", changeListeners := [Handler.syncUIFn] })
      (some { display := "block" }) (some { clickListeners := [] }) "/b")
    rfl rfl rfl

/-- C10: `syncUI` returns a state with the same select (value and listeners),
the same button (listeners), the same location and a container present exactly
when it was; the reset click handler returns a state with the same select, the
same container (display included) and the same button. -/
theorem syncUI_frame_and_reset_frame (s : State) :
    (∃ s1, syncUI s = Except.ok s1 ∧ s1.dimsSelect = s.dimsSelect ∧
      s1.btnReset = s.btnReset ∧ s1.href = s.href ∧ s1.zRow.isSome = s.zRow.isSome) ∧
    (∃ s2, runHandler Handler.resetArrow s = Except.ok s2 ∧ s2.dimsSelect = s.dimsSelect ∧
      s2.zRow = s.zRow ∧ s2.btnReset = s.btnReset) := by
  constructor
  · refine ⟨syncDoc s, syncUI_eq s, rfl, rfl, rfl, ?_⟩
    simp [syncDoc]
  · exact ⟨_, runHandler_eq _ s, rfl, rfl, rfl⟩

/-! ## The reset handler -/

theorem dispatchClick_eq (s : State) (b : ButtonElem) (h : s.btnReset = some b) :
    dispatchClick s
      = Except.ok (b.clickListeners.foldl (fun d h => applyHandler h d) s) := by
  simp [dispatchClick, h, invokeAll_eq]

theorem dispatchChange_eq (s : State) (sel : SelectElem) (h : s.dimsSelect = some sel) :
    dispatchChange s
      = Except.ok (sel.changeListeners.foldl (fun d h => applyHandler h d) s) := by
  simp [dispatchChange, h, invokeAll_eq]

/-- C3: on every state the click handler returns that state with the location
set to "/" and nothing else changed; and when the reset control is present, a
click dispatched on the document the script leaves behind returns that
document with the location "/". -/
theorem reset_click_navigates_to_root (s : State) :
    runHandler Handler.resetArrow s = Except.ok { s with href := "/" } ∧
    (∀ b, s.btnReset = some b →
      ∃ s1, runScript s = Except.ok s1 ∧
        dispatchClick s1 = Except.ok { s1 with href := "/" }) := by
  refine ⟨rfl, fun b hb => ⟨_, runScript_eq s, ?_⟩⟩
  rcases s with ⟨sel, z, b0, loc⟩
  simp only at hb
  subst hb
  rw [dispatchClick_eq _ { b with clickListeners := b.clickListeners ++ [Handler.resetArrow] }
    (by simp [syncDoc, registered])]
  rw [foldl_applyHandler, syncDoc_syncDoc]
  simp

/-- C3 on a document with select value "3", a hidden container, a reset
button and the location "/plot?x=1". -/
theorem reset_click_navigates_to_root_witness :
    ∃ s1, runScript (State.mk (some { value := "3", changeListeners := [] })
        (some { display := "none" }) (some { clickListeners := [] }) "/plot?x=1")
        = Except.ok s1 ∧
      dispatchClick s1 = Except.ok { s1 with href := "/" } :=
  (reset_click_navigates_to_root (State.mk (some { value := "3", changeListeners := [] })
    (some { display := "none" }) (some { clickListeners := [] }) "/plot?x=1")).2
    { clickListeners := [] } rfl

/-! ## The script as a whole -/

/-- C5: on every initial document the script returns a document `s1`; the
initialisation is the registrations followed by the body of the registered
listener; a change event dispatched on `s1` keeps the display of `s1`; and when
the select is present, a change event dispatched right after the registrations
alone yields the display of `s1`, and the very document `s1` when no listener
was attached before. -/
theorem init_agrees_with_change_listener (s : State) :
    ∃ s1, runScript s = Except.ok s1 ∧
      (runRegistrations s).bind (runHandler Handler.syncUIFn) = Except.ok s1 ∧
      (∃ s2, dispatchChange s1 = Except.ok s2 ∧ displayOf s2 = displayOf s1) ∧
      (∀ sel, s.dimsSelect = some sel →
        ∃ s3, (runRegistrations s).bind dispatchChange = Except.ok s3 ∧
          displayOf s3 = displayOf s1 ∧ (sel.changeListeners = [] → s3 = s1)) := by
  refine ⟨_, runScript_eq s, ?_, ?_, ?_⟩
  · simp [runRegistrations_eq, Except.bind, runHandler_eq, applyHandler]
  · rcases s with ⟨sel, z, b, loc⟩
    cases sel with
    | none => exact ⟨_, by simp [dispatchChange, syncDoc, registered], rfl⟩
    | some e =>
      refine ⟨_, dispatchChange_eq _
        { e with changeListeners := e.changeListeners ++ [Handler.syncUIFn] }
        (by simp [syncDoc, registered]), ?_⟩
      rw [foldl_applyHandler, syncDoc_syncDoc]
      simp [displayOf]
  · intro sel hsel
    rcases s with ⟨sel0, z, b, loc⟩
    simp only at hsel
    subst hsel
    refine ⟨(sel.changeListeners ++ [Handler.syncUIFn]).foldl (fun d h => applyHandler h d)
      (registered (State.mk (some sel) z b loc)), ?_, ?_, ?_⟩
    · rw [runRegistrations_eq]
      simp only [Except.bind]
      exact dispatchChange_eq _
        { sel with changeListeners := sel.changeListeners ++ [Handler.syncUIFn] }
        (by simp [registered])
    · rw [foldl_applyHandler]
      simp [displayOf]
    · intro hnil
      simp [hnil, applyHandler]

/-- C5 on a fresh document with select value "3", a container and a button. -/
theorem init_agrees_with_change_listener_witness :
    ∃ s1, runScript (State.mk (some { value := "3", changeListeners := [] })
        (some { display := "" }) (some { clickListeners := [] }) "/a") = Except.ok s1 ∧
      (runRegistrations (State.mk (some { value := "3", changeListeners := [] })
        (some { display := "" }) (some { clickListeners := [] }) "/a")).bind dispatchChange
        = Except.ok s1 := by
  obtain ⟨s1, h1, _, _, h4⟩ :=
    init_agrees_with_change_listener (State.mk (some { value := "3", changeListeners := [] })
      (some { display := "" }) (some { clickListeners := [] }) "/a")
  obtain ⟨s3, h5, _, h6⟩ := h4 { value := "3", changeListeners := [] } rfl
  exact ⟨s1, h1, by rw [h5, h6 rfl]⟩

/-- C7: the script returns; the only function called during the run is
`syncUI`, once; the select, when present, has gained exactly one change
listener, `syncUI`, and stays absent otherwise; the button, when present, has
gained exactly one click listener, the reset arrow function, and stays absent
otherwise. -/
theorem main_registers_by_presence_and_calls_once (s : State) :
    ∃ e, main s = Except.ok e ∧
      e.invoked = [Handler.syncUIFn] ∧
      e.doc.dimsSelect = s.dimsSelect.map (fun sel =>
        { sel with changeListeners := sel.changeListeners ++ [Handler.syncUIFn] }) ∧
      e.doc.btnReset = s.btnReset.map (fun b =>
        { b with clickListeners := b.clickListeners ++ [Handler.resetArrow] }) :=
  ⟨_, main_eq s, rfl, rfl, rfl⟩

/-- C8: for every presence or absence of the three elements, every select
value and every earlier display, the script returns without an exception and
the location is the one it started with. -/
theorem script_returns_and_keeps_location (sel : Option SelectElem) (z : Option Container)
    (b : Option ButtonElem) (loc : String) :
    ∃ e, main (State.mk sel z b loc) = Except.ok e ∧
      runScript (State.mk sel z b loc) = Except.ok e.doc ∧ e.doc.href = loc :=
  ⟨_, main_eq _, runScript_eq _, rfl⟩

end MainJs
